import Mathlib

/-!
Verification of the man2man repository (src/man2man.py), a man-page to JSON
converter.  The program is a sequence of Python regular-expression heuristics;
we shallowly embed the relevant functions over `List Char`, together with a
small backtracking matcher for the exact subset of Python `re` syntax the
program uses (literals, character classes, greedy and lazy quantifiers,
alternation, a single capture group, lookahead, word boundaries, and the
anchors `\Z` and `$`).  The matcher explores alternatives in Python's
backtracking preference order (leftmost start, left alternative first, greedy
prefers longer, lazy prefers shorter) and is driven by a fuel parameter that
bounds recursion depth; the fuel supplied by `mfuel` is far larger than the
depth any of the program's patterns can reach on a given input.  Character
classes use the ASCII readings of Python's `\s` and `\w`, which agree with
Python on the ASCII inputs the program manipulates.
-/

namespace man2man

/-- Python whitespace characters (the ASCII part of `\s`). -/
def pyIsSpace (c : Char) : Bool :=
  c == ' ' || c == '\t' || c == '\n' || c == '\r' || c == '\x0b' || c == '\x0c'

/-- Python word characters (the ASCII part of `\w`): letters, digits, underscore. -/
def pyIsWord (c : Char) : Bool :=
  c.isAlphanum || c == '_'

/-- ASCII uppercase letter, the class written A-Z in the source patterns. -/
def isUpperAZ (c : Char) : Bool :=
  'A' ≤ c && c ≤ 'Z'

/-- ASCII lowercase letter; used to read A-Z under IGNORECASE on a lowercased haystack. -/
def isLowerAZ (c : Char) : Bool :=
  'a' ≤ c && c ≤ 'z'

/-- Regular expression abstract syntax, covering the constructs used in man2man.py. -/
inductive Re where
  | lit : Char → Re
  | cls : (Char → Bool) → Re
  | eps : Re
  | seq : Re → Re → Re
  | alt : Re → Re → Re
  | grp : Re → Re
  | starG : Re → Re
  | starL : Re → Re
  | plusG : Re → Re
  | plusL : Re → Re
  | opt : Re → Re
  | look : Re → Re
  | wordB : Re
  | endZ : Re
  | dollar : Re

/-- Sequence a list of regexes. -/
def reSeq (l : List Re) : Re :=
  l.foldr Re.seq Re.eps

/-- Alternate a list of regexes, preferring earlier entries. -/
def reAlts : List Re → Re
  | [] => Re.eps
  | [r] => r
  | r :: rs => Re.alt r (reAlts rs)

/-- Literal string as a regex. -/
def rstr (w : String) : Re :=
  reSeq (w.data.map Re.lit)

/-- Is the character at index i of s a word character (false past the ends). -/
def wordAt (s : List Char) (i : Nat) : Bool :=
  match s.get? i with
  | some c => pyIsWord c
  | none => false

/-- Backtracking matcher.  Given fuel, a regex, a start index and the current
capture of group 1, return the list of (end index, group-1 span) outcomes in
Python's backtracking preference order.  Empty iterations of a starred
subexpression are cut off, matching Python's refusal to loop on an empty
match. -/
def mrun (s : List Char) : Nat → Re → Nat → Option (Nat × Nat) → List (Nat × Option (Nat × Nat))
  | 0, _, _, _ => []
  | Nat.succ fuel, re, i, g =>
    match re with
    | .lit c =>
      match s.get? i with
      | some d => if d == c then [(i + 1, g)] else []
      | none => []
    | .cls p =>
      match s.get? i with
      | some d => if p d then [(i + 1, g)] else []
      | none => []
    | .eps => [(i, g)]
    | .seq a b =>
      (mrun s fuel a i g).flatMap (fun jg => mrun s fuel b jg.1 jg.2)
    | .alt a b =>
      mrun s fuel a i g ++ mrun s fuel b i g
    | .grp r =>
      (mrun s fuel r i g).map (fun jg => (jg.1, some (i, jg.1)))
    | .starG r =>
      ((mrun s fuel r i g).flatMap
        (fun jg => if i < jg.1 then mrun s fuel (.starG r) jg.1 jg.2 else [])) ++ [(i, g)]
    | .starL r =>
      (i, g) :: (mrun s fuel r i g).flatMap
        (fun jg => if i < jg.1 then mrun s fuel (.starL r) jg.1 jg.2 else [])
    | .plusG r =>
      (mrun s fuel r i g).flatMap
        (fun jg => if i < jg.1 then mrun s fuel (.starG r) jg.1 jg.2 else [jg])
    | .plusL r =>
      (mrun s fuel r i g).flatMap
        (fun jg => if i < jg.1 then mrun s fuel (.starL r) jg.1 jg.2 else [jg])
    | .opt r =>
      mrun s fuel r i g ++ [(i, g)]
    | .look r =>
      if (mrun s fuel r i g).isEmpty then [] else [(i, g)]
    | .wordB =>
      let a := match i with
        | 0 => false
        | Nat.succ j => wordAt s j
      if a != wordAt s i then [(i, g)] else []
    | .endZ =>
      if i == s.length then [(i, g)] else []
    | .dollar =>
      if i == s.length || (i + 1 == s.length && s.get? i == some '\n') then [(i, g)] else []

/-- Fuel bound: generously larger than any recursion depth reachable by the
program's patterns on a string of this length. -/
def mfuel (s : List Char) : Nat :=
  100 * s.length + 1000

/-- Scan for a match position, counting down the number of start positions left
to try so that the recursion is structural. -/
def searchAux (r : Re) (s : List Char) : Nat → Nat → Option (Nat × Nat × Option (Nat × Nat))
  | 0, _ => none
  | Nat.succ k, i =>
    if i ≤ s.length then
      match mrun s (mfuel s) r i none with
      | jg :: _ => some (i, jg.1, jg.2)
      | [] => searchAux r s k (i + 1)
    else none

/-- First match of r in s at or after index i: returns (start, end, group-1 span). -/
def searchFrom (r : Re) (s : List Char) (i : Nat) : Option (Nat × Nat × Option (Nat × Nat)) :=
  searchAux r s (s.length + 1 - i) i

/-- Python re.search: leftmost match. -/
def reSearch (r : Re) (s : List Char) : Option (Nat × Nat × Option (Nat × Nat)) :=
  searchFrom r s 0

/-- All non-overlapping matches left to right, advancing one position past an
empty match, as Python's scanner does. -/
def scanAux (r : Re) (s : List Char) : Nat → Nat → List (Nat × Nat × Option (Nat × Nat))
  | 0, _ => []
  | Nat.succ k, pos =>
    match searchFrom r s pos with
    | none => []
    | some (b, e, g) => (b, e, g) :: scanAux r s k (if b < e then e else e + 1)

/-- All matches of r in s. -/
def scanAll (r : Re) (s : List Char) : List (Nat × Nat × Option (Nat × Nat)) :=
  scanAux r s (s.length + 1) 0

/-- Slice s between indices b (inclusive) and e (exclusive). -/
def sliceL (s : List Char) (b e : Nat) : List Char :=
  (s.drop b).take (e - b)

/-- Python re.findall for a pattern with exactly one capture group: the list of
group-1 texts (full match when the group span is unavailable). -/
def reFindall (r : Re) (s : List Char) : List (List Char) :=
  (scanAll r s).map (fun m =>
    match m.2.2 with
    | some gp => sliceL s gp.1 gp.2
    | none => sliceL s m.1 m.2.1)

/-- Replace the given (sorted, non-overlapping) spans of s by repl. -/
def spliceAux (s repl : List Char) (pos : Nat) : List (Nat × Nat) → List Char
  | [] => s.drop pos
  | (b, e) :: rest => sliceL s pos b ++ repl ++ spliceAux s repl e rest

/-- Python re.sub with an optional replacement-count bound (none = unlimited). -/
def reSub (r : Re) (repl s : List Char) (count : Option Nat) : List Char :=
  let spans := (scanAll r s).map (fun m => (m.1, m.2.1))
  let spans := match count with
    | some n => spans.take n
    | none => spans
  spliceAux s repl 0 spans

/-- Pieces of s between the spans. -/
def splitAux (s : List Char) (pos : Nat) : List (Nat × Nat) → List (List Char)
  | [] => [s.drop pos]
  | (b, e) :: rest => sliceL s pos b :: splitAux s e rest

/-- Python re.split for a groupless pattern. -/
def reSplit (r : Re) (s : List Char) : List (List Char) :=
  splitAux s 0 ((scanAll r s).map (fun m => (m.1, m.2.1)))

/-! Python string primitives used by the source. -/

/-- Python str.strip(): remove leading and trailing whitespace. -/
def pyStrip (l : List Char) : List Char :=
  ((l.dropWhile pyIsSpace).reverse.dropWhile pyIsSpace).reverse

/-- Python str.lower() (ASCII). -/
def lowerL (l : List Char) : List Char :=
  l.map Char.toLower

/-- Python str.rstrip('.'): remove trailing dots. -/
def rstripDot (l : List Char) : List Char :=
  (l.reverse.dropWhile (fun c => c == '.')).reverse

/-- Python str.split(sep) for a single-character separator, keeping empty pieces. -/
def splitOnChar (c : Char) : List Char → List (List Char)
  | [] => [[]]
  | x :: xs =>
    let r := splitOnChar c xs
    if x == c then [] :: r
    else
      match r with
      | h :: t => (x :: h) :: t
      | [] => [[x]]

/-- Python ' '.join. -/
def joinSpace : List (List Char) → List Char
  | [] => []
  | [x] => x
  | x :: xs => x ++ ' ' :: joinSpace xs

/-- Does hay start with needle. -/
def leadMatch : List Char → List Char → Bool
  | [], _ => true
  | _ :: _, [] => false
  | a :: as, b :: bs => a == b && leadMatch as bs

/-- Python substring containment: needle in hay. -/
def subIn (needle : List Char) : List Char → Bool
  | [] => leadMatch needle []
  | c :: t => leadMatch needle (c :: t) || subIn needle t

/-- Build a String back from characters. -/
def mkS (l : List Char) : String :=
  String.mk l

/-! Patterns of man2man.py, transcribed one for one from the source literals. -/

/-- Class for any character under DOTALL (every dot in the source runs under re.DOTALL). -/
def dotAll : Re :=
  Re.cls (fun _ => true)

/-- Class for one whitespace character. -/
def wsC : Re :=
  Re.cls pyIsSpace

/-- Class for one non-whitespace character. -/
def nonwsC : Re :=
  Re.cls (fun c => !pyIsSpace c)

/-- Class for one word character. -/
def wordC : Re :=
  Re.cls pyIsWord

/-- Word chunk used by extract_value_type, written in the source as a word
optionally extended by underscore- or dash-joined words. -/
def wordChunk : Re :=
  Re.seq (.plusG wordC)
    (.starG (Re.seq (Re.cls (fun c => c == '_' || c == '-')) (.plusG wordC)))

/-- Pattern of extract_description, NAME branch: NAME, whitespace, newline,
whitespace, a non-space run, whitespace, one of hyphen or en dash or em dash,
whitespace, lazily captured text, with a lookahead for a newline followed by a
non-space or for a blank line (re.DOTALL). -/
def nameRe : Re :=
  reSeq [rstr "NAME", .starG wsC, .lit '\n', .starG wsC, .plusG nonwsC, .starG wsC,
    Re.cls (fun c => c == '-' || c == '–' || c == '—'), .starG wsC,
    .grp (.plusL dotAll),
    .look (Re.alt (Re.seq (.lit '\n') nonwsC) (rstr "\n\n"))]

/-- Pattern of extract_description, DESCRIPTION branch: DESCRIPTION, whitespace,
newline, whitespace, lazily captured text, with a lookahead for a newline then a
non-space run then a newline, or a blank line then a non-space (re.DOTALL). -/
def descSectionRe : Re :=
  reSeq [rstr "DESCRIPTION", .starG wsC, .lit '\n', .starG wsC,
    .grp (.plusL dotAll),
    .look (Re.alt (reSeq [.lit '\n', .plusG nonwsC, .lit '\n'])
      (reSeq [.lit '\n', .lit '\n', nonwsC]))]

/-- Sentence-boundary pattern of extract_description: one of period, exclamation
mark or question mark, followed by whitespace. -/
def sentenceSplitRe : Re :=
  Re.seq (Re.cls (fun c => c == '.' || c == '!' || c == '?')) (.plusG wsC)

/-- Whitespace-run pattern used by the several whitespace-collapsing re.sub calls. -/
def wsRunRe : Re :=
  .plusG wsC

/-- Flag-word pattern of classify_parameter_type: word boundary, one of toggle,
enable, disable or flag, word boundary (searched on the lowercased description). -/
def flagWordsRe : Re :=
  reSeq [.wordB, .grp (reAlts [rstr "toggle", rstr "enable", rstr "disable", rstr "flag"]), .wordB]

/-- Key-equals-value pattern: word boundary, word, equals sign, word, word boundary. -/
def kvEqRe : Re :=
  reSeq [.wordB, .plusG wordC, .lit '=', .plusG wordC, .wordB]

/-- Literal name=value with word boundaries (searched IGNORECASE via lowercasing). -/
def nameValueRe : Re :=
  reSeq [.wordB, rstr "name=value", .wordB]

/-- Key-colon-value pattern: word boundary, word, colon, word, word boundary. -/
def kvColonRe : Re :=
  reSeq [.wordB, .plusG wordC, .lit ':', .plusG wordC, .wordB]

/-- Literal username:password with word boundaries (IGNORECASE via lowercasing). -/
def userPassRe : Re :=
  reSeq [.wordB, rstr "username:password", .wordB]

/-- Literal name:value with word boundaries (IGNORECASE via lowercasing). -/
def nameColonValueRe : Re :=
  reSeq [.wordB, rstr "name:value", .wordB]

/-- Pattern for a long option with equals in the description: two dashes, a word, equals. -/
def dashEqRe : Re :=
  reSeq [.lit '-', .lit '-', .plusG wordC, .lit '=']

/-- Pattern testing whether the captured name carries a value token: whitespace,
a word, then whitespace or a closing bracket or end of string. -/
def takesValueRe : Re :=
  reSeq [.plusG wsC, .plusG wordC, reAlts [.plusG wsC, .lit ']', .dollar]]

/-- Value-verb pattern of classify_parameter_type: word boundary, one of specify,
set, use, take, accept or require, word boundary (on the lowercased description). -/
def valueVerbRe : Re :=
  reSeq [.wordB,
    .grp (reAlts [rstr "specify", rstr "set", rstr "use", rstr "take", rstr "accept", rstr "require"]),
    .wordB]

/-- First value pattern of extract_value_type: a dash or opening angle bracket,
a captured word chunk, then a closing angle or square bracket. -/
def valuePat1 : Re :=
  reSeq [Re.cls (fun c => c == '-' || c == '<'), .grp wordChunk,
    Re.cls (fun c => c == '>' || c == ']')]

/-- Second value pattern: whitespace, a captured word chunk, optional whitespace,
then an ellipsis. -/
def valuePat2 : Re :=
  reSeq [.plusG wsC, .grp wordChunk, .starG wsC, rstr "..."]

/-- Third value pattern: an equals sign then a captured word chunk. -/
def valuePat3 : Re :=
  Re.seq (.lit '=') (.grp wordChunk)

/-- Fourth value pattern: whitespace, a captured all-caps word of length at least
two, then a word boundary. -/
def valuePat4 : Re :=
  reSeq [.plusG wsC, .grp (Re.seq (Re.cls isUpperAZ) (.plusG (Re.cls (fun c => isUpperAZ c || c == '_')))), .wordB]

/-- Options-section pattern of parse_options, lowered for IGNORECASE: the header
OPTIONS or the phrase about available options with an optional colon, whitespace,
newline, a lazily captured body, and a lookahead for a newline then a letter then
letters or whitespace then a newline, or end of input.  Under IGNORECASE the
class A-Z matches letters of either case, which on a lowercased haystack is the
class a-z. -/
def optionsSectionRe : Re :=
  reSeq [Re.alt (rstr "options") (Re.seq (rstr "the following options are available") (.opt (.lit ':'))),
    .starG wsC, .lit '\n',
    .grp (.starL dotAll),
    .look (Re.alt (reSeq [.lit '\n', Re.cls isLowerAZ,
        .plusG (Re.cls (fun c => isLowerAZ c || pyIsSpace c)), .lit '\n'])
      .endZ)]

/-- Entry-boundary pattern of parse_options: a newline with a lookahead for
whitespace then a dash. -/
def entrySplitRe : Re :=
  Re.seq (.lit '\n') (.look (Re.seq (.plusG wsC) (.lit '-')))

/-- Class for the characters allowed in an option name: letters, digits,
underscore, dash. -/
def optNameChar : Char → Bool :=
  fun c => c.isAlphanum || c == '_' || c == '-'

/-- Option-token pattern of parse_options: either one or two dashes, a run of
name characters, and an optional equals sign with a non-space run; or a dash, a
single letter, and an optional whitespace-separated value token.  The whole
alternation is the single capture group. -/
def optionPat : Re :=
  .grp (Re.alt
    (reSeq [.lit '-', .opt (.lit '-'), .plusG (Re.cls optNameChar),
      .opt (Re.seq (.lit '=') (.plusG nonwsC))])
    (reSeq [.lit '-', Re.cls Char.isAlpha,
      .opt (Re.seq (.plusG wsC) (.plusG nonwsC))]))

/-- Synopsis-section pattern of parse_positional_args: SYNOPSIS, whitespace,
newline, whitespace, a lazily captured body, and a lookahead for a blank line or
a newline followed by an uppercase letter (re.DOTALL). -/
def synopsisRe : Re :=
  reSeq [rstr "SYNOPSIS", .starG wsC, .lit '\n', .starG wsC,
    .grp (.plusL dotAll),
    .look (Re.alt (rstr "\n\n") (Re.seq (.lit '\n') (Re.cls isUpperAZ)))]

/-- Whole-word occurrence of the command name, as built by the formatted pattern
in parse_positional_args. -/
def commandRe (command : String) : Re :=
  reSeq [.wordB, rstr command, .wordB]

/-- Option-like token pattern removed from the synopsis: an optional opening
bracket, one or two dashes, a word, an optional whitespace-separated word, and an
optional closing bracket. -/
def bracketOptRe : Re :=
  reSeq [.opt (.lit '['), .lit '-', .opt (.lit '-'), .plusG wordC,
    .opt (Re.seq (.plusG wsC) (.plusG wordC)), .opt (.lit ']')]

/-- Positional-token pattern: an optional opening bracket, a captured token that
is an all-caps-or-underscore run or an ellipsis-suffixed word, an optional second
such token after whitespace, and an optional closing bracket. -/
def positionalPat : Re :=
  reSeq [.opt (.lit '['),
    .grp (Re.alt (.plusG (Re.cls (fun c => isUpperAZ c || c == '_')))
      (Re.seq (.plusG wordC) (rstr "..."))),
    .opt (Re.alt (Re.seq (.plusG wsC) (.plusG (Re.cls (fun c => isUpperAZ c || c == '_'))))
      (reSeq [.plusG wsC, .plusG wordC, rstr "..."])),
    .opt (.lit ']')]

/-! Translation of the program functions of man2man.py.  The source retriever
(get_man_page and the web fallback) is an external collaborator; every function
below takes the retrieved text as an argument. -/

/-- Group-1 text of a match, falling back to the whole match span. -/
def groupSlice (s : List Char) (m : Nat × Nat × Option (Nat × Nat)) : List Char :=
  match m.2.2 with
  | some gp => sliceL s gp.1 gp.2
  | none => sliceL s m.1 m.2.1

/-- Translation of extract_description (src/man2man.py lines 89-108). -/
def extract_description (man_content : String) : String :=
  let mc := man_content.data
  match reSearch nameRe mc with
  | some m =>
    let desc := pyStrip (groupSlice mc m)
    mkS (reSub wsRunRe [' '] desc none)
  | none =>
    match reSearch descSectionRe mc with
    | some m =>
      let desc := pyStrip (groupSlice mc m)
      match reSplit sentenceSplitRe desc with
      | s0 :: _ => mkS (pyStrip s0)
      | [] => "No description available"
    | none => "No description available"

/-- Translation of classify_parameter_type (src/man2man.py lines 111-148).  The
two nested conditionals of the source, whose inner test falls through to the
following rule when it fails, are flattened into conjunctions, which yields the
same control flow. -/
def classify_parameter_type (param_name description : String) (first_line : String := "") : String :=
  if (reSearch flagWordsRe (lowerL description.data)).isSome then "flag"
  else
    let combined := param_name.data ++ ' ' :: first_line.data ++ ' ' :: description.data
    if (reSearch kvEqRe combined).isSome && !(param_name.data.contains '=')
        && (reSearch nameValueRe (lowerL combined)).isSome then "option-kv-equals"
    else if (reSearch kvColonRe combined).isSome && !(param_name.data.contains ':')
        && ((reSearch userPassRe (lowerL combined)).isSome
            || (reSearch nameColonValueRe (lowerL combined)).isSome) then "option-kv-colon"
    else if param_name.data.contains '=' || (reSearch dashEqRe description.data).isSome then
      "option-equals"
    else if (reSearch takesValueRe param_name.data).isSome then "option"
    else if leadMatch ['-'] param_name.data && param_name.length == 2 then
      if (reSearch valueVerbRe (lowerL description.data)).isSome then "option" else "flag"
    else "option"

/-- First of the given patterns to match, returning the group-1 text. -/
def firstValueMatch : List Re → List Char → Option (List Char)
  | [], _ => none
  | r :: rs, s =>
    match reSearch r s with
    | some m => some (groupSlice s m)
    | none => firstValueMatch rs s

/-- Normalization table of extract_value_type. -/
def normalizeValueType (v : String) : String :=
  if v == "file" || v == "path" || v == "filename" || v == "filepath" then "file-path"
  else if v == "num" || v == "number" || v == "n" || v == "count" then "number"
  else if v == "string" || v == "str" || v == "text" then "string"
  else if v == "pid" || v == "process" then "pid"
  else if v == "dir" || v == "directory" then "directory"
  else v

/-- Translation of extract_value_type (src/man2man.py lines 151-189). -/
def extract_value_type (param_text description : String) : Option String :=
  match firstValueMatch [valuePat1, valuePat2, valuePat3, valuePat4] param_text.data with
  | some vt0 => some (normalizeValueType (mkS (lowerL vt0)))
  | none =>
    let dl := lowerL description.data
    if subIn "file".data dl || subIn "path".data dl then some "file-path"
    else if subIn "number".data dl || subIn "numeric".data dl then some "number"
    else if subIn "directory".data dl then some "directory"
    else if subIn "pid".data dl || subIn "process id".data dl then some "pid"
    else none

/-- Parameter record as built by the source: optional fields mirror the keys the
source only sometimes adds to the dictionary. -/
structure Param where
  name : String
  paramType : String
  valueType : Option String := none
  description : Option String := none
  position : Option Nat := none
deriving DecidableEq

/-- Description accumulation of the per-entry loop of parse_options: the first
line with the matched option tokens removed, followed by the stripped non-empty
remaining lines, joined with spaces, whitespace-collapsed and stripped. -/
def optionDescription (first_line : List Char) (restLines : List (List Char))
    (nMatches : Nat) : List Char :=
  let desc_on_first := pyStrip (reSub optionPat [] first_line (some nMatches))
  let description_lines := (if desc_on_first.isEmpty then [] else [desc_on_first]) ++
    ((restLines.map pyStrip).filter (fun l => !l.isEmpty))
  pyStrip (reSub wsRunRe [' '] (joinSpace description_lines) none)

/-- Body of the per-entry loop of parse_options after the guards have passed:
primary option token, stripped first line, remaining lines, and the number of
option-token matches (used as the replacement count). -/
def buildOptionParam (primary first_line : List Char) (restLines : List (List Char))
    (nMatches : Nat) : Param :=
  let description := optionDescription first_line restLines nMatches
  let param_type := classify_parameter_type (mkS primary) (mkS description) (mkS first_line)
  let value_type :=
    if param_type != "flag" then extract_value_type (mkS first_line) (mkS description) else none
  { name := mkS (pyStrip primary)
    paramType := param_type
    valueType := match value_type with
      | some v => if v == "" then none else some v
      | none => none
    description := if description.isEmpty then none else some (mkS (description.take 200)) }

/-- Per-entry processing of parse_options: the guards that make the loop skip an
entry return none. -/
def mkOptionParam (entry : List Char) : Option Param :=
  if (pyStrip entry).isEmpty then none
  else
    match splitOnChar '\n' (pyStrip entry) with
    | [] => none
    | l0 :: rest =>
      let first_line := pyStrip l0
      if !leadMatch ['-'] first_line then none
      else
        match reFindall optionPat first_line with
        | [] => none
        | primary :: more => some (buildOptionParam primary first_line rest (more.length + 1))

/-- Search for the options section (the guard of parse_options). -/
def findOptionsSection (man_content : String) : Option (Nat × Nat × Option (Nat × Nat)) :=
  reSearch optionsSectionRe (lowerL man_content.data)

/-- Translation of parse_options (src/man2man.py lines 192-273).  The
IGNORECASE search runs on the lowercased text; the group span indexes the
original text. -/
def parse_options (man_content : String) : List Param :=
  let mc := man_content.data
  match findOptionsSection man_content with
  | none => []
  | some m =>
    let options_text := groupSlice mc m
    (reSplit entrySplitRe options_text).filterMap mkOptionParam

/-- Record construction for one positional token (src/man2man.py lines 301-320). -/
def mkPositional (idx : Nat) (pos_arg : List Char) : Param :=
  let arg_lower := lowerL pos_arg
  { name := mkS (pyStrip pos_arg)
    paramType := "positional"
    position := some idx
    valueType :=
      if subIn "file".data arg_lower || subIn "path".data arg_lower then some "file-path"
      else if subIn "dir".data arg_lower then some "directory"
      else if subIn "pid".data arg_lower then some "pid"
      else some (mkS (rstripDot arg_lower)) }

/-- Search for the synopsis section (the guard of parse_positional_args). -/
def findSynopsis (man_content : String) : Option (Nat × Nat × Option (Nat × Nat)) :=
  reSearch synopsisRe man_content.data

/-- Translation of parse_positional_args (src/man2man.py lines 276-322). -/
def parse_positional_args (man_content command : String) : List Param :=
  let mc := man_content.data
  match findSynopsis man_content with
  | none => []
  | some m =>
    let synopsis0 := pyStrip (groupSlice mc m)
    let s1 := reSub (commandRe command) [] synopsis0 none
    let s2 := reSub bracketOptRe [] s1 none
    let ms := reFindall positionalPat s2
    (ms.enum.map (fun p => (p.1 + 1, p.2))).filterMap (fun p =>
      if (pyStrip p.2).isEmpty then none else some (mkPositional p.1 p.2))

/-- Tool record: the value stored under the tool key of the result dictionary. -/
structure Tool where
  name : String
  description : String
  parameters : List Param
deriving DecidableEq

/-- Translation of man_to_json (src/man2man.py lines 325-350) applied to
retrieved text: the retrieval itself (get_man_page) is an external collaborator,
so the function here takes the text as an argument and always produces a record. -/
def man_to_json (command man_content : String) : Tool :=
  { name := command
    description := extract_description man_content
    parameters := parse_positional_args man_content command ++ parse_options man_content }

/-! Output handling of main (src/man2man.py lines 382-421).  The output file is
modelled by its parsed JSON content; serialization is the identity on this
representation. -/

/-- JSON values as produced by json.load. -/
inductive Json where
  | null : Json
  | bool : Bool → Json
  | num : Int → Json
  | str : String → Json
  | arr : List Json → Json
  | obj : List (String × Json) → Json

/-- Is this value a Python list (isinstance(x, list)). -/
def Json.isArr : Json → Bool
  | .arr _ => true
  | _ => false

/-- Python dict assignment d[k] = v on an association list parsed from JSON:
replace the value in place when the key exists, append otherwise. -/
def setKey (m : List (String × Json)) (k : String) (v : Json) : List (String × Json) :=
  match m with
  | [] => [(k, v)]
  | (k0, v0) :: rest => if k0 == k then (k0, v) :: rest else (k0, v0) :: setKey rest k v

/-- Failure modes of the append-to-existing-file branch of main: the schema
error printed when the tools field is not a list, and the TypeError raised by
the membership test or the subscript on a non-dict document, caught by the
generic handler. -/
inductive MergeErr where
  | schemaErr : MergeErr
  | typeErr : MergeErr

/-- Append branch of main for an existing parsed document (lines 390-398): when
the tools key is absent the whole document is replaced by a fresh dictionary
with an empty tools list before appending; when tools holds a non-list the run
fails; otherwise the new tool is appended in place.  On a non-dict document the
Python membership test either raises (numbers, booleans, null) or checks
element or substring membership (lists, strings), and the subsequent subscript
raises on the path where the key was found. -/
def appendTool (existing : Json) (tool : Json) : Except MergeErr Json :=
  match existing with
  | .obj m =>
    match List.lookup "tools" m with
    | none => .ok (.obj [("tools", .arr [tool])])
    | some (.arr l) => .ok (.obj (setKey m "tools" (.arr (l ++ [tool]))))
    | some _ => .error .schemaErr
  | .arr l =>
    if l.any (fun x =>
        match x with
        | .str t => t == "tools"
        | _ => false) then .error .typeErr
    else .ok (.obj [("tools", .arr [tool])])
  | .str s =>
    if subIn "tools".data s.data then .error .typeErr
    else .ok (.obj [("tools", .arr [tool])])
  | _ => .error .typeErr

/-- State of the output file: absent, present but not valid JSON, or parsed. -/
inductive FileState where
  | absent : FileState
  | unparseable : FileState
  | parsed : Json → FileState

/-- One run of the output section of main with the -o flag (lines 382-421),
returning the exit code and the resulting file state.  Every error branch
returns 1 before any write, leaving the file as it was; the absent-file branch
writes a fresh single-tool document. -/
def runOutputStep (file : FileState) (tool : Json) : Nat × FileState :=
  match file with
  | .absent => (0, .parsed (.obj [("tools", .arr [tool])]))
  | .unparseable => (1, .unparseable)
  | .parsed e =>
    match appendTool e tool with
    | .ok d => (0, .parsed d)
    | .error _ => (1, .parsed e)

/-- Lookup of a key in the document held by a file state. -/
def fileLookup (fs : FileState) (k : String) : Option Json :=
  match fs with
  | .parsed (.obj m) => List.lookup k m
  | _ => none

/-! Concrete inputs named in the claims. -/

/-- Synopsis input of the grep example. -/
def grepSynopsisInput : String :=
  "SYNOPSIS\n    grep [OPTIONS] PATTERN [FILE]...\n\n"

/-- Man-page text holding the verbose-flag options entry. -/
def verboseEntryInput : String :=
  "OPTIONS\n    -v, --verbose    enable verbose output\n"

/-- Man-page text holding the cookie options entry. -/
def cookieEntryInput : String :=
  "OPTIONS\n    --cookie <name=value>   pass cookie as name=value\n"

/-- Name-section input of the description example. -/
def nameSectionInput : String :=
  "NAME\n    foo - does a thing\n\n"

/-! Supporting lemmas. -/

/-- Setting a key makes it the value found by lookup, whether it was present or not. -/
theorem lookup_setKey (m : List (String × Json)) (k : String) (v : Json) :
    List.lookup k (setKey m k v) = some v := by
  induction m with
  | nil => simp [setKey, List.lookup]
  | cons p rest ih =>
    obtain ⟨k0, v0⟩ := p
    by_cases h : k0 = k
    · subst h
      simp [setKey, List.lookup]
    · have h2 : (k0 == k) = false := beq_eq_false_iff_ne.mpr h
      have h3 : (k == k0) = false := beq_eq_false_iff_ne.mpr (Ne.symm h)
      simp [setKey, List.lookup, h2, h3, ih]

/-- The parameter type of an assembled option record is the classification of
its primary token against the accumulated description and first line. -/
theorem buildOptionParam_paramType (pr fl : List Char) (rest : List (List Char)) (n : Nat) :
    (buildOptionParam pr fl rest n).paramType
      = classify_parameter_type (mkS pr) (mkS (optionDescription fl rest n)) (mkS fl) := by
  simp [buildOptionParam]

/-- When an assembled option record is classified flag, value-type inference is
skipped, so the record holds no value type. -/
theorem buildOptionParam_flag_no_value (pr fl : List Char) (rest : List (List Char)) (n : Nat)
    (h : (buildOptionParam pr fl rest n).paramType = "flag") :
    (buildOptionParam pr fl rest n).valueType = none := by
  have hc : classify_parameter_type (mkS pr) (mkS (optionDescription fl rest n)) (mkS fl)
      = "flag" := (buildOptionParam_paramType pr fl rest n) ▸ h
  simp [buildOptionParam, hc]

/-- Every record produced by the per-entry processing is an assembled option record. -/
theorem mkOptionParam_shape (e : List Char) (p : Param) (h : mkOptionParam e = some p) :
    ∃ pr fl rest n, p = buildOptionParam pr fl rest n := by
  simp only [mkOptionParam] at h
  split at h
  · exact absurd h (by simp)
  · split at h
    · exact absurd h (by simp)
    · split at h
      · exact absurd h (by simp)
      · split at h
        · exact absurd h (by simp)
        · exact ⟨_, _, _, _, (Option.some_inj.mp h).symm⟩

/-- The value type of a positional record is always populated. -/
theorem mkPositional_valueType_isSome (idx : Nat) (tok : List Char) :
    (mkPositional idx tok).valueType.isSome = true := by
  simp only [mkPositional]
  split
  · rfl
  · split
    · rfl
    · split <;> rfl

/-! Claims. -/

/-- Claim C1, counterexample: on the grep synopsis the positional parser
returns three records, not the two the claim states, because the bracketed
token OPTIONS carries no dash and so survives the option-token removal. -/
theorem c1_counterexample :
    (parse_positional_args grepSynopsisInput "grep").length = 3 ∧
    ¬ (parse_positional_args grepSynopsisInput "grep").length = 2 := by
  have h : (parse_positional_args grepSynopsisInput "grep").length = 3 := by decide
  exact ⟨h, by omega⟩

/-- Claim C1 as amended: for the grep synopsis, parse_positional_args returns
exactly three positional records OPTIONS, PATTERN and FILE, with position 1, 2
and 3 assigned in order of appearance, and the third record's value-type is
file-path. -/
theorem c1_amended_three_positionals :
    parse_positional_args grepSynopsisInput "grep" =
      [{ name := "OPTIONS", paramType := "positional", valueType := some "options",
         description := none, position := some 1 },
       { name := "PATTERN", paramType := "positional", valueType := some "pattern",
         description := none, position := some 2 },
       { name := "FILE", paramType := "positional", valueType := some "file-path",
         description := none, position := some 3 }] := by
  decide

/-- Claim C2, counterexample: appending tool B to an existing document that
lacks a tools key but holds another entry foo rewrites the file to a document
holding only the fresh tools sequence; the entry foo is discarded, so the
existing entries are not preserved as the claim states. -/
theorem c2_counterexample :
    runOutputStep (.parsed (.obj [("foo", .num 1)])) (.str "B")
      = (0, .parsed (.obj [("tools", .arr [.str "B"])])) ∧
    fileLookup (runOutputStep (.parsed (.obj [("foo", .num 1)])) (.str "B")).2 "foo" = none :=
  ⟨rfl, rfl⟩

/-- Claim C2 as amended: for every pre-existing output file whose content
parses as a mapping lacking a tools key, running with the output flag rewrites
it to a document whose only entry is a tools sequence holding the new
ToolRecord; the other entries of the existing document are discarded. -/
theorem c2_amended_discards_existing_entries (m : List (String × Json)) (t : Json)
    (h : List.lookup "tools" m = none) :
    runOutputStep (.parsed (.obj m)) t = (0, .parsed (.obj [("tools", .arr [t])])) := by
  simp [runOutputStep, appendTool, h]

/-- Witness for the amended claim C2 at a concrete document. -/
theorem c2_amended_witness :
    runOutputStep (.parsed (.obj [("foo", .num 1)])) (.str "B")
      = (0, .parsed (.obj [("tools", .arr [.str "B"])])) :=
  c2_amended_discards_existing_entries [("foo", .num 1)] (.str "B") rfl

/-- Claim C3: when the existing document's tools key holds a non-sequence
value, the run exits with code 1 and the file content is unchanged. -/
theorem c3_nonlist_tools_error_no_write (m : List (String × Json)) (v t : Json)
    (h1 : List.lookup "tools" m = some v) (h2 : v.isArr = false) :
    runOutputStep (.parsed (.obj m)) t = (1, .parsed (.obj m)) := by
  cases v <;> simp_all [runOutputStep, appendTool, Json.isArr]

/-- Witness for claim C3 at the document with tools bound to the string
not-a-list. -/
theorem c3_witness :
    runOutputStep (.parsed (.obj [("tools", .str "not-a-list")])) .null
      = (1, .parsed (.obj [("tools", .str "not-a-list")])) :=
  c3_nonlist_tools_error_no_write [("tools", .str "not-a-list")] (.str "not-a-list") .null rfl rfl

/-- Claim C6: on the NAME-section input the description extractor returns the
text after the dash, whitespace-collapsed. -/
theorem c6_extract_description_name_section :
    extract_description nameSectionInput = "does a thing" := by
  decide

/-- Claim C8: appending to a document whose tools key holds a sequence adds
exactly the new record at the end, preserving the existing records and their
order, and appending again to the written result extends it by one more record
at the end. -/
theorem c8_append_is_ordered_extension (m : List (String × Json)) (l : List Json) (B C : Json)
    (h : List.lookup "tools" m = some (.arr l)) :
    runOutputStep (.parsed (.obj m)) B
      = (0, .parsed (.obj (setKey m "tools" (.arr (l ++ [B]))))) ∧
    runOutputStep (.parsed (.obj (setKey m "tools" (.arr (l ++ [B]))))) C
      = (0, .parsed (.obj (setKey (setKey m "tools" (.arr (l ++ [B]))) "tools"
          (.arr (l ++ [B] ++ [C]))))) := by
  have h2 := lookup_setKey m "tools" (Json.arr (l ++ [B]))
  constructor
  · simp [runOutputStep, appendTool, h]
  · simp [runOutputStep, appendTool, h2]

/-- Witness for claim C8: tools = sequence of A, append B then C. -/
theorem c8_witness :
    runOutputStep (.parsed (.obj [("tools", .arr [.str "A"])])) (.str "B")
      = (0, .parsed (.obj [("tools", .arr [.str "A", .str "B"])])) ∧
    runOutputStep (.parsed (.obj [("tools", .arr [.str "A", .str "B"])])) (.str "C")
      = (0, .parsed (.obj [("tools", .arr [.str "A", .str "B", .str "C"])])) :=
  c8_append_is_ordered_extension [("tools", .arr [.str "A"])] [.str "A"] (.str "B") (.str "C") rfl

/-- Claim C4: whenever the flag-word search (toggle, enable, disable or flag as
whole words of the lowercased description) succeeds, classification returns
flag regardless of the other rules, since this rule is tested first; and the
verbose entry is parsed to a single record with param-type flag. -/
theorem c4_flag_word_precedence (n d f : String)
    (h : (reSearch flagWordsRe (lowerL d.data)).isSome = true) :
    classify_parameter_type n d f = "flag" ∧
    parse_options verboseEntryInput =
      [{ name := "-v", paramType := "flag", valueType := none,
         description := some ", enable verbose output", position := none }] := by
  constructor
  · simp [classify_parameter_type, h]
  · decide

/-- Witness for claim C4 at the description extracted from the verbose entry. -/
theorem c4_witness :
    classify_parameter_type "-v" ", enable verbose output"
      "-v, --verbose    enable verbose output" = "flag" :=
  (c4_flag_word_precedence "-v" ", enable verbose output"
    "-v, --verbose    enable verbose output" (by decide)).1

/-- Claim C5: when the flag-word rule does not fire, the combined text
name-first line-description contains a word=word pattern, the option name holds
no equals sign, and the combined text contains name=value case-insensitively,
classification returns option-kv-equals; and the cookie entry is parsed to a
single record with param-type option-kv-equals. -/
theorem c5_kv_equals_rule (n d f : String)
    (h1 : (reSearch flagWordsRe (lowerL d.data)).isSome = false)
    (h2 : (reSearch kvEqRe (n.data ++ ' ' :: f.data ++ ' ' :: d.data)).isSome = true)
    (h3 : n.data.contains '=' = false)
    (h4 : (reSearch nameValueRe (lowerL (n.data ++ ' ' :: f.data ++ ' ' :: d.data))).isSome
      = true) :
    classify_parameter_type n d f = "option-kv-equals" ∧
    parse_options cookieEntryInput =
      [{ name := "--cookie", paramType := "option-kv-equals", valueType := some "value",
         description := some "<name=value> pass cookie as name=value", position := none }] := by
  constructor
  · simp only [classify_parameter_type]
    rw [h1, h2, h3, h4]
    rfl
  · decide

/-- Witness for claim C5 at the values produced from the cookie entry. -/
theorem c5_witness :
    classify_parameter_type "--cookie" "<name=value> pass cookie as name=value"
      "--cookie <name=value>   pass cookie as name=value" = "option-kv-equals" :=
  (c5_kv_equals_rule "--cookie" "<name=value> pass cookie as name=value"
    "--cookie <name=value>   pass cookie as name=value"
    (by decide) (by decide) (by decide) (by decide)).1

/-- Claim C7: a text with no options section yields an empty option list, a
text with no synopsis section yields an empty positional list, and the
conversion of retrieved text always assembles a tool record from the three
extractors, so it still succeeds. -/
theorem c7_missing_sections_yield_empty (text cmd : String) :
    (findOptionsSection text = none → parse_options text = []) ∧
    (findSynopsis text = none → parse_positional_args text cmd = []) ∧
    man_to_json cmd text =
      { name := cmd, description := extract_description text,
        parameters := parse_positional_args text cmd ++ parse_options text } := by
  refine ⟨?_, ?_, rfl⟩
  · intro h
    simp [parse_options, h]
  · intro h
    simp [parse_positional_args, h]

/-- Witness for claim C7 at a text with neither section. -/
theorem c7_witness :
    parse_options "hello" = [] ∧ parse_positional_args "hello" "foo" = [] :=
  ⟨(c7_missing_sections_yield_empty "hello" "foo").1 (by decide),
   (c7_missing_sections_yield_empty "hello" "foo").2.1 (by decide)⟩

/-- Claim C9: every record the option parser emits with param-type flag holds
no value-type field, because value-type inference is skipped for flags and the
field is only added for a non-empty inferred value. -/
theorem c9_flag_records_have_no_value_type (text : String) (p : Param)
    (hmem : p ∈ parse_options text) (hflag : p.paramType = "flag") :
    p.valueType = none := by
  simp only [parse_options] at hmem
  rcases hfind : findOptionsSection text with _ | m
  · rw [hfind] at hmem
    simp at hmem
  · rw [hfind] at hmem
    simp only [List.mem_filterMap] at hmem
    obtain ⟨e, _, he⟩ := hmem
    obtain ⟨pr, fl, rest, n, rfl⟩ := mkOptionParam_shape e p he
    exact buildOptionParam_flag_no_value pr fl rest n hflag

/-- Witness for claim C9 at the flag record parsed from the verbose entry. -/
theorem c9_witness :
    ({ name := "-v", paramType := "flag", valueType := none,
       description := some ", enable verbose output", position := none } : Param).valueType
      = none :=
  c9_flag_records_have_no_value_type verboseEntryInput _ (by decide) (by decide)

/-- Claim C10: every positional record carries a value-type field, and when
none of the substring hints fire the field holds the lowercased token with
trailing dots stripped. -/
theorem c10_positional_records_always_typed :
    (∀ text cmd : String, ∀ p ∈ parse_positional_args text cmd, p.valueType.isSome = true) ∧
    (∀ idx : Nat, ∀ tok : List Char,
      subIn "file".data (lowerL tok) = false → subIn "path".data (lowerL tok) = false →
      subIn "dir".data (lowerL tok) = false → subIn "pid".data (lowerL tok) = false →
      (mkPositional idx tok).valueType = some (mkS (rstripDot (lowerL tok)))) := by
  constructor
  · intro text cmd p hmem
    simp only [parse_positional_args] at hmem
    rcases hfind : findSynopsis text with _ | m
    · rw [hfind] at hmem
      simp at hmem
    · rw [hfind] at hmem
      simp only [List.mem_filterMap] at hmem
      obtain ⟨q, _, hq⟩ := hmem
      split at hq
      · exact absurd hq (by simp)
      · obtain rfl := Option.some_inj.mp hq
        exact mkPositional_valueType_isSome _ _
  · intro idx tok h1 h2 h3 h4
    simp [mkPositional, h1, h2, h3, h4]

/-- Witness for claim C10 at the PATTERN record of the grep synopsis. -/
theorem c10_witness :
    ({ name := "PATTERN", paramType := "positional", valueType := some "pattern",
       description := none, position := some 2 } : Param).valueType.isSome = true ∧
    (mkPositional 2 "PATTERN".data).valueType = some (mkS (rstripDot (lowerL "PATTERN".data))) :=
  ⟨c10_positional_records_always_typed.1 grepSynopsisInput "grep" _ (by decide),
   c10_positional_records_always_typed.2 2 "PATTERN".data
     (by decide) (by decide) (by decide) (by decide)⟩

end man2man
